import Mathlib

/-!
Verification of the Sedona bike-rentals screen (`src/app/index.tsx`).

The source is a single React Native component.  We shallowly embed the parts
the specification talks about:

* `Coordinate` — the `LocationState` / `RouteCoordinates` shapes (both are
  `{ latitude, longitude }` records of IEEE doubles, modelled as real numbers).
* `ROUTES` — the static trail catalog.
* `fetchRouteCoordinates` — the route fetcher.  Its interaction with the
  network is modelled by a `FetchResult` value describing how the external
  call behaved; the function maps the previous `routeCoordinates` state to
  the new one, exactly following the `try`/`catch` structure of the source.
* `calculateDistance` — the Haversine helper, over ℝ with `Real.sin`,
  `Real.cos`, `Real.sqrt` and an explicit `atan2` matching the JavaScript
  `Math.atan2` sign conventions on real inputs.
* `step` — the screen's reachable-state transition system: trail selection
  (with the permission request outcome), the back button, and the
  `watchPositionAsync` callback body (`processUpdate`).
-/

namespace Sedona

/-- A geographic coordinate: the `LocationState` and `RouteCoordinates`
interfaces of the source (`{ latitude: number; longitude: number }`).
IEEE doubles are modelled as real numbers. -/
structure Coordinate where
  latitude : ℝ
  longitude : ℝ

/-- The `Route` interface of the source: a trail with a fixed destination. -/
structure Route where
  id : ℕ
  name : String
  endLocation : Coordinate

/-- The static `ROUTES` catalog (lines 24–45 of the source). -/
def ROUTES : List Route :=
  [ ⟨1, "Cathedral Rock Trail", ⟨34.8222, -111.7901⟩⟩,
    ⟨2, "Bell Rock Pathway", ⟨34.8032, -111.7761⟩⟩,
    ⟨3, "Devil\x27s Bridge Trail", ⟨34.8837, -111.8158⟩⟩,
    ⟨4, "Soldier Pass Trail", ⟨34.8743, -111.7967⟩⟩ ]

/-- One element of the routing response's `routes` array.  `geometry` is
`none` when `routes[0].geometry` (or its `coordinates` array) is missing, in
which case the property access `data.routes[0].geometry.coordinates` throws a
`TypeError` inside the `try` block.  When present, `coordinates` is the list
of `[longitude, latitude]` pairs. -/
structure OsrmRoute where
  geometry : Option (List (ℝ × ℝ))

/-- The parsed JSON body `data`.  `routes = []` models both a body with no
`routes` key and one with an empty `routes` array: in either case the guard
`data.routes && data.routes[0]` is falsy. -/
structure OsrmData where
  routes : List OsrmRoute

/-- How the external routing call behaved, as observed by the `try` block:
either `fetch`/`response.json()` rejected (network error, malformed body,
`data` not an object), or a JSON body was obtained. -/
inductive FetchResult where
  | fetchThrows : FetchResult
  | ok : OsrmData → FetchResult

/-- The body of the `try` block in `fetchRouteCoordinates` (source lines
55–68), as a function from the previous `routeCoordinates` state to the new
one; `Except.error` marks the control paths on which the body throws and the
`catch` handler runs.  When the guard `data.routes && data.routes[0]` is
falsy the body completes without calling `setRouteCoordinates`, so the state
keeps its previous value. -/
def fetchTryBody (start finish : Coordinate) (result : FetchResult)
    (prev : List Coordinate) : Except String (List Coordinate) :=
  match result with
  | .fetchThrows => .error "fetch or json rejected"
  | .ok data =>
    match data.routes with
    | [] => .ok prev
    | first :: _ =>
      match first.geometry with
      | none => .error "TypeError reading coordinates"
      | some coords =>
        .ok (coords.map (fun coord => (⟨coord.2, coord.1⟩ : Coordinate)))

/-- The function `fetchRouteCoordinates` (source lines 53–77) as an
`Except`-valued map: an `Except.error` result would mean the async function rejects,
i.e. an exception escapes to the caller.  The `catch` block absorbs every
throw from the body and installs the straight-line fallback `[start, end]`. -/
def fetchRouteCoordinatesE (start finish : Coordinate) (result : FetchResult)
    (prev : List Coordinate) : Except String (List Coordinate) :=
  match fetchTryBody start finish result prev with
  | .ok coords => .ok coords
  | .error _ => .ok [start, finish]

/-- The new value of the `routeCoordinates` state after
`fetchRouteCoordinates start finish` runs against external behaviour
`result`, starting from state `prev`. -/
def fetchRouteCoordinates (start finish : Coordinate) (result : FetchResult)
    (prev : List Coordinate) : List Coordinate :=
  match fetchRouteCoordinatesE start finish result prev with
  | .ok coords => coords
  | .error _ => prev

/-- JavaScript's `Math.atan2 y x` on (finite, real) inputs: the angle of the
point `(x, y)`, in `(-π, π]`, with `atan2 0 0 = 0` (the sign conventions of
IEEE `atan2` at `(+0, +0)`). -/
noncomputable def atan2 (y x : ℝ) : ℝ :=
  if 0 < x then Real.arctan (y / x)
  else if x < 0 ∧ 0 ≤ y then Real.arctan (y / x) + Real.pi
  else if x < 0 ∧ y < 0 then Real.arctan (y / x) - Real.pi
  else if x = 0 ∧ 0 < y then Real.pi / 2
  else if x = 0 ∧ y < 0 then -(Real.pi / 2)
  else 0

/-- The helper `calculateDistance` (source lines 130–140): Haversine
distance in kilometres with Earth radius 6371 km, embedded over ℝ. -/
noncomputable def calculateDistance (point1 point2 : Coordinate) : ℝ :=
  let R : ℝ := 6371
  let dLat := (point2.latitude - point1.latitude) * Real.pi / 180
  let dLon := (point2.longitude - point1.longitude) * Real.pi / 180
  let a :=
    Real.sin (dLat / 2) * Real.sin (dLat / 2) +
      Real.cos (point1.latitude * Real.pi / 180) *
        Real.cos (point2.latitude * Real.pi / 180) *
        Real.sin (dLon / 2) * Real.sin (dLon / 2)
  let c := 2 * atan2 (Real.sqrt a) (Real.sqrt (1 - a))
  R * c

/-- The value `atan2 y x` is nonnegative whenever `y` is. -/
theorem atan2_nonneg {y x : ℝ} (hy : 0 ≤ y) : 0 ≤ atan2 y x := by
  unfold atan2
  split
  · have h0 : (0 : ℝ) ≤ y / x := div_nonneg hy (le_of_lt (by assumption))
    have harc := Real.arctan_strictMono.monotone h0
    rwa [Real.arctan_zero] at harc
  · split
    · have hpi := Real.pi_gt_three
      have harc := Real.neg_pi_div_two_lt_arctan (y / x)
      linarith
    · split
      · exact absurd hy (not_le.mpr (by tauto))
      · split
        · have hpi := Real.pi_gt_three
          linarith
        · split
          · exact absurd hy (not_le.mpr (by tauto))
          · exact le_refl 0

/-- Shared evaluation: the distance from any point to itself is `0`. -/
theorem calculateDistance_self (a : Coordinate) : calculateDistance a a = 0 := by
  unfold calculateDistance
  simp only [sub_self, zero_mul, zero_div, Real.sin_zero, mul_zero, zero_add,
    add_zero, Real.sqrt_zero, sub_zero, Real.sqrt_one]
  have h : atan2 0 1 = 0 := by
    unfold atan2
    rw [if_pos one_pos]
    simp [Real.arctan_zero]
  rw [h]
  ring

/-- The Haversine parameter `a` of `calculateDistance` (the let-bound `a` of
source lines 134–137), written out with `dLat` and `dLon` substituted. -/
noncomputable def havTerm (point1 point2 : Coordinate) : ℝ :=
  Real.sin ((point2.latitude - point1.latitude) * Real.pi / 180 / 2) *
      Real.sin ((point2.latitude - point1.latitude) * Real.pi / 180 / 2) +
    Real.cos (point1.latitude * Real.pi / 180) *
      Real.cos (point2.latitude * Real.pi / 180) *
      Real.sin ((point2.longitude - point1.longitude) * Real.pi / 180 / 2) *
      Real.sin ((point2.longitude - point1.longitude) * Real.pi / 180 / 2)

/-- Evaluation of `calculateDistance` to its closed form over `havTerm`. -/
theorem calculateDistance_eq (p q : Coordinate) :
    calculateDistance p q =
      6371 * (2 * atan2 (Real.sqrt (havTerm p q)) (Real.sqrt (1 - havTerm p q))) := rfl

/-- The Haversine parameter is symmetric in its two points. -/
theorem havTerm_comm (p q : Coordinate) : havTerm p q = havTerm q p := by
  unfold havTerm
  have h1 : (p.latitude - q.latitude) * Real.pi / 180 / 2 =
      -((q.latitude - p.latitude) * Real.pi / 180 / 2) := by ring
  have h2 : (p.longitude - q.longitude) * Real.pi / 180 / 2 =
      -((q.longitude - p.longitude) * Real.pi / 180 / 2) := by ring
  simp only [h1, h2, Real.sin_neg]
  ring

/-- Claim C8: `calculateDistance` is symmetric: for every pair of
coordinates `a` and `b`, `calculateDistance a b = calculateDistance b a`
(exactly, in the real-number model of the IEEE arithmetic). -/
theorem calculateDistance_symm (a b : Coordinate) :
    calculateDistance a b = calculateDistance b a := by
  rw [calculateDistance_eq, calculateDistance_eq, havTerm_comm]

/-- Claim C9: the distance from any coordinate to itself is `0`. -/
theorem calculateDistance_self_eq_zero (a : Coordinate) :
    calculateDistance a a = 0 :=
  calculateDistance_self a

/-- Claim C10: `calculateDistance` never returns a negative value, so the
arrival comparison against `0.05` km is always meaningful. -/
theorem calculateDistance_nonneg (a b : Coordinate) :
    0 ≤ calculateDistance a b := by
  rw [calculateDistance_eq]
  have h := @atan2_nonneg (Real.sqrt (havTerm a b))
    (Real.sqrt (1 - havTerm a b)) (Real.sqrt_nonneg (havTerm a b))
  nlinarith

/-- The "Bell Rock Pathway" catalog entry (index 1 of `ROUTES`). -/
def bellRock : Route := ⟨2, "Bell Rock Pathway", ⟨34.8032, -111.7761⟩⟩

/-- The antipode of the Bell Rock destination: a concrete position whose
distance to the destination evaluates exactly. -/
def bellRockAntipode : Coordinate := ⟨-34.8032, 68.2239⟩

/-- The Haversine parameter from the antipode to the Bell Rock destination
is exactly `1`. -/
theorem havTerm_antipode : havTerm bellRockAntipode bellRock.endLocation = 1 := by
  unfold havTerm bellRockAntipode bellRock
  dsimp only
  have hlat : ((34.8032 : ℝ) - -34.8032) * Real.pi / 180 / 2 =
      34.8032 * Real.pi / 180 := by ring
  have hneg : (-34.8032 : ℝ) * Real.pi / 180 = -(34.8032 * Real.pi / 180) := by
    ring
  have hlon : ((-111.7761 : ℝ) - 68.2239) * Real.pi / 180 / 2 =
      -(Real.pi / 2) := by ring
  rw [hlat, hneg, hlon, Real.cos_neg, Real.sin_neg, Real.sin_pi_div_two]
  have hpyth := Real.sin_sq_add_cos_sq (34.8032 * Real.pi / 180)
  linear_combination hpyth

/-- The distance from the antipode to the Bell Rock destination is
`6371 * π` km (half the great circle). -/
theorem calculateDistance_antipode :
    calculateDistance bellRockAntipode bellRock.endLocation = 6371 * Real.pi := by
  rw [calculateDistance_eq, havTerm_antipode]
  have hsub : (1 : ℝ) - 1 = 0 := by norm_num
  rw [hsub, Real.sqrt_zero, Real.sqrt_one]
  have hatan : atan2 1 0 = Real.pi / 2 := by
    unfold atan2
    rw [if_neg (lt_irrefl (0 : ℝ)), if_neg (by norm_num), if_neg (by norm_num),
      if_pos ⟨rfl, one_pos⟩]
  rw [hatan]
  ring

/-- The antipode is not within the arrival threshold of the Bell Rock
destination. -/
theorem antipode_not_arrived :
    ¬ (calculateDistance bellRockAntipode bellRock.endLocation < 0.05) := by
  rw [calculateDistance_antipode]
  have hpi := Real.pi_gt_three
  intro hlt
  nlinarith

/-- Claim C1 (counterexample): a response that parses but contains no
`routes[0]` does not produce the `[start, end]` fallback — the guard
`data.routes && data.routes[0]` is falsy, the body completes without calling
`setRouteCoordinates`, and the path keeps its previous value (here `[]`). -/
theorem fetch_no_routes_no_fallback :
    ¬ (fetchRouteCoordinates ⟨0, 0⟩ ⟨1, 1⟩ (FetchResult.ok ⟨[]⟩) [] =
        [(⟨0, 0⟩ : Coordinate), ⟨1, 1⟩]) := by
  intro h
  exact List.noConfusion h

/-- Claim C1 (amended): when the route fetch throws (network failure or
malformed body) or the first route's geometry is missing (so the coordinate
access throws), the path is set to `[start, end]`; when the body parses but
contains no `routes[0]`, the path is left unchanged. -/
theorem fetch_failure_behaviour (start finish : Coordinate)
    (prev : List Coordinate) (rest : List OsrmRoute) :
    fetchRouteCoordinates start finish FetchResult.fetchThrows prev =
        [start, finish] ∧
    fetchRouteCoordinates start finish
        (FetchResult.ok ⟨(⟨none⟩ : OsrmRoute) :: rest⟩) prev = [start, finish] ∧
    fetchRouteCoordinates start finish (FetchResult.ok ⟨[]⟩) prev = prev :=
  ⟨rfl, rfl, rfl⟩

/-- Claim C4: on a well-formed response with at least one route, the path
has the same length as the response's geometry coordinate list and, in the
same start-to-end order, the `i`-th path element has `latitude` the second
component and `longitude` the first component of the `i`-th response pair. -/
theorem fetch_maps_response_coordinates (start finish : Coordinate)
    (coords : List (ℝ × ℝ)) (rest : List OsrmRoute) (prev : List Coordinate) :
    (fetchRouteCoordinates start finish
        (FetchResult.ok ⟨⟨some coords⟩ :: rest⟩) prev).length = coords.length ∧
    ∀ i : ℕ,
      (fetchRouteCoordinates start finish
          (FetchResult.ok ⟨⟨some coords⟩ :: rest⟩) prev)[i]? =
        (coords[i]?).map (fun coord => (⟨coord.2, coord.1⟩ : Coordinate)) := by
  have hval : fetchRouteCoordinates start finish
      (FetchResult.ok ⟨⟨some coords⟩ :: rest⟩) prev =
      coords.map (fun coord => (⟨coord.2, coord.1⟩ : Coordinate)) := rfl
  constructor
  · rw [hval]
    exact List.length_map _ _
  · intro i
    rw [hval]
    exact List.getElem?_map _ _ _

/-- Claim C6: `fetchRouteCoordinates` never raises to its caller — for every
behaviour of the external call the async function resolves (`Except.ok`);
every throw inside the `try` body is absorbed by the `catch` handler. -/
theorem fetch_never_raises (start finish : Coordinate) (result : FetchResult)
    (prev : List Coordinate) :
    ∃ coords, fetchRouteCoordinatesE start finish result prev =
      Except.ok coords := by
  rcases h : fetchTryBody start finish result prev with e | c
  · exact ⟨[start, finish], by unfold fetchRouteCoordinatesE; rw [h]⟩
  · exact ⟨c, by unfold fetchRouteCoordinatesE; rw [h]⟩

/-- The component state of `HomeScreen`: the three `useState` hooks plus
whether the location subscription is live (the `locationSubscription` local
of the tracking effect). -/
structure ScreenState where
  location : Option Coordinate
  selectedRoute : Option Route
  routeCoordinates : List Coordinate
  tracking : Bool

/-- The state on first mount: `useState(null)`, `useState(null)`,
`useState([])`, no subscription. -/
def initialState : ScreenState := ⟨none, none, [], false⟩

/-- Result of `Location.requestForegroundPermissionsAsync()`. -/
inductive PermissionStatus where
  | granted : PermissionStatus
  | denied : PermissionStatus
  | undetermined : PermissionStatus

/-- The body of the `watchPositionAsync` callback (source lines 95–117), for
the route `r` captured by the effect closure: record the new position, run
`fetchRouteCoordinates` against external behaviour `fetch`, then perform the
arrival check and clear the path when the distance is below `0.05` km. -/
noncomputable def processUpdate (s : ScreenState) (r : Route)
    (pos : Coordinate) (fetch : FetchResult) : ScreenState :=
  let afterLocation := { s with location := some pos }
  let afterFetch := { afterLocation with
    routeCoordinates :=
      fetchRouteCoordinates pos r.endLocation fetch
        afterLocation.routeCoordinates }
  if calculateDistance pos r.endLocation < 0.05 then
    { afterFetch with routeCoordinates := [] }
  else
    afterFetch

/-- The external events that drive the screen: tapping a catalog entry
(index into `ROUTES`, together with the permission outcome the effect then
observes), tapping the back button, and a position update delivered by the
live subscription. -/
inductive Event where
  | select : ℕ → PermissionStatus → Event
  | back : Event
  | update : Coordinate → FetchResult → Event

/-- One screen transition.  Selecting is only possible from the catalog view
(`selectedRoute = none`); it stores the tapped route and starts the
subscription exactly when permission is granted (source lines 83–90).  Back
clears the selection and the effect cleanup removes the subscription (source
lines 121–125, 213–219).  A position update runs the callback body only
while a route is selected and the subscription is live. -/
noncomputable def step (s : ScreenState) : Event → ScreenState
  | .select i perm =>
    match s.selectedRoute, ROUTES[i]? with
    | none, some r =>
      { s with
        selectedRoute := some r,
        tracking := match perm with | .granted => true | _ => false }
    | _, _ => s
  | .back => { s with selectedRoute := none, tracking := false }
  | .update pos fetch =>
    match s.selectedRoute, s.tracking with
    | some r, true => processUpdate s r pos fetch
    | _, _ => s

/-- Folding a list of events from a start state. -/
noncomputable def runEvents (s : ScreenState) : List Event → ScreenState
  | [] => s
  | e :: es => runEvents (step s e) es

/-- A state the screen can actually be in. -/
def reachable (s : ScreenState) : Prop :=
  ∃ es : List Event, runEvents initialState es = s

/-- Claim C3: the arrival check is strictly exclusive — a computed distance
strictly below `0.05` km clears the path to `[]`, while a distance of at
least `0.05` km (in particular one exactly equal to `0.05`) does not clear
it and leaves the freshly fetched path in place. -/
theorem arrival_boundary_exclusive (s : ScreenState) (r : Route)
    (pos : Coordinate) (fetch : FetchResult) :
    (calculateDistance pos r.endLocation < 0.05 →
      (processUpdate s r pos fetch).routeCoordinates = []) ∧
    (0.05 ≤ calculateDistance pos r.endLocation →
      (processUpdate s r pos fetch).routeCoordinates =
        fetchRouteCoordinates pos r.endLocation fetch s.routeCoordinates) := by
  constructor
  · intro h
    simp only [processUpdate]
    rw [if_pos h]
  · intro h
    simp only [processUpdate]
    rw [if_neg (not_lt.mpr h)]

/-- Witness for C3: at the destination itself the distance is `0 < 0.05`
and the path is cleared; at the antipode the distance is `6371 π ≥ 0.05`
and the (fallback) path `[pos, destination]` is kept. -/
theorem arrival_boundary_exclusive_witness :
    (processUpdate initialState bellRock bellRock.endLocation
        FetchResult.fetchThrows).routeCoordinates = [] ∧
    (processUpdate initialState bellRock bellRockAntipode
        FetchResult.fetchThrows).routeCoordinates =
      [bellRockAntipode, bellRock.endLocation] := by
  constructor
  · exact (arrival_boundary_exclusive initialState bellRock bellRock.endLocation
      FetchResult.fetchThrows).1
      (by rw [calculateDistance_self]; norm_num)
  · have h := (arrival_boundary_exclusive initialState bellRock bellRockAntipode
      FetchResult.fetchThrows).2
      (by rw [calculateDistance_antipode]; nlinarith [Real.pi_gt_three])
    rw [h]
    rfl

/-- Claim C5: the callback records the position first, applies the fetch
result, and evaluates arrival last — so whenever the new position is within
`0.05` km of the destination, the update ends with the recorded position and
an empty path, regardless of what the fetch returned. -/
theorem arrival_overrides_fetch (s : ScreenState) (r : Route)
    (pos : Coordinate) (fetch : FetchResult)
    (h : calculateDistance pos r.endLocation < 0.05) :
    (processUpdate s r pos fetch).location = some pos ∧
    (processUpdate s r pos fetch).routeCoordinates = [] := by
  simp only [processUpdate]
  rw [if_pos h]
  exact ⟨rfl, rfl⟩

/-- Witness for C5: arriving at the Bell Rock destination with a fetch that
succeeded with a non-empty geometry still ends with an empty path. -/
theorem arrival_overrides_fetch_witness :
    (processUpdate initialState bellRock bellRock.endLocation
        (FetchResult.ok ⟨[⟨some [(7, 8)]⟩]⟩)).location =
      some bellRock.endLocation ∧
    (processUpdate initialState bellRock bellRock.endLocation
        (FetchResult.ok ⟨[⟨some [(7, 8)]⟩]⟩)).routeCoordinates = [] :=
  arrival_overrides_fetch initialState bellRock bellRock.endLocation
    (FetchResult.ok ⟨[⟨some [(7, 8)]⟩]⟩)
    (by rw [calculateDistance_self]; norm_num)

/-- Claim C7: selecting a trail when the permission request returns any
status other than `granted` performs no further work — no subscription is
started, the position and path are untouched, and every subsequent position
update is a no-op (and nothing throws: `step` is total). -/
theorem permission_denied_no_work (s : ScreenState) (i : ℕ) (r : Route)
    (perm : PermissionStatus) (hperm : perm ≠ PermissionStatus.granted)
    (hsel : s.selectedRoute = none) (hi : ROUTES[i]? = some r) :
    (step s (Event.select i perm)).tracking = false ∧
    (step s (Event.select i perm)).location = s.location ∧
    (step s (Event.select i perm)).routeCoordinates = s.routeCoordinates ∧
    ∀ pos fetch,
      step (step s (Event.select i perm)) (Event.update pos fetch) =
        step s (Event.select i perm) := by
  have htrack : (match perm with
      | PermissionStatus.granted => true
      | _ => false) = false := by
    cases perm with
    | granted => exact absurd rfl hperm
    | denied => rfl
    | undetermined => rfl
  simp only [step, hsel, hi, htrack]
  exact ⟨trivial, trivial, trivial, fun _ _ => trivial⟩

/-- Witness for C7: selecting "Bell Rock Pathway" with a denied permission
leaves the initial state untouched apart from the selection, and a position
update at the antipode changes nothing. -/
theorem permission_denied_no_work_witness :
    (step initialState (Event.select 1 PermissionStatus.denied)).tracking =
      false ∧
    (step initialState (Event.select 1 PermissionStatus.denied)).location =
      none ∧
    (step initialState
        (Event.select 1 PermissionStatus.denied)).routeCoordinates = [] ∧
    step (step initialState (Event.select 1 PermissionStatus.denied))
        (Event.update bellRockAntipode FetchResult.fetchThrows) =
      step initialState (Event.select 1 PermissionStatus.denied) := by
  have h := permission_denied_no_work initialState 1 bellRock
    PermissionStatus.denied (fun hc => PermissionStatus.noConfusion hc) rfl rfl
  exact ⟨h.1, h.2.1, h.2.2.1, h.2.2.2 bellRockAntipode FetchResult.fetchThrows⟩

/-- A successful route fetch whose geometry is the single pair `[3, 4]`
(longitude 3, latitude 4). -/
def demoFetch : FetchResult := FetchResult.ok ⟨[⟨some [(3, 4)]⟩]⟩

/-- Select Bell Rock with permission granted, receive one position update at
the antipode (far from arrival) whose fetch succeeds, then tap back. -/
def c2Events : List Event :=
  [Event.select 1 PermissionStatus.granted,
   Event.update bellRockAntipode demoFetch,
   Event.back]

/-- Claim C2 (counterexample): the invariant "`routeCoordinates` is
non-empty only while `selectedRoute` is non-null" fails — after selecting
Bell Rock, receiving a far-away update with a successful fetch, and tapping
back, the screen reaches a state with `selectedRoute = none` and a non-empty
path, because the back action never clears `routeCoordinates`. -/
theorem path_survives_back_counterexample :
    ¬ (∀ s : ScreenState, reachable s →
        s.routeCoordinates ≠ [] → s.selectedRoute ≠ none) := by
  intro hall
  have h1 : step initialState (Event.select 1 PermissionStatus.granted) =
      ⟨none, some bellRock, [], true⟩ := rfl
  have h2 : step (⟨none, some bellRock, [], true⟩ : ScreenState)
      (Event.update bellRockAntipode demoFetch) =
      ⟨some bellRockAntipode, some bellRock, [(⟨4, 3⟩ : Coordinate)], true⟩ := by
    show processUpdate ⟨none, some bellRock, [], true⟩ bellRock
        bellRockAntipode demoFetch = _
    simp only [processUpdate]
    rw [if_neg antipode_not_arrived]
    rfl
  have hrun : runEvents initialState c2Events =
      ⟨some bellRockAntipode, none, [(⟨4, 3⟩ : Coordinate)], false⟩ := by
    simp only [c2Events, runEvents]
    rw [h1, h2]
    rfl
  exact hall _ ⟨c2Events, hrun⟩ (List.cons_ne_nil _ _) rfl

/-- Claim C2 (amended): the back action sets the selection to `none` but
leaves `routeCoordinates` exactly as it was, so a non-empty path can outlive
the selection; the invariant as stated does not hold in every reachable
state. -/
theorem back_clears_selection_keeps_path (s : ScreenState) :
    (step s Event.back).selectedRoute = none ∧
    (step s Event.back).routeCoordinates = s.routeCoordinates :=
  ⟨rfl, rfl⟩

end Sedona
